import Mathlib

/-!
Verification of the staged-ingestion pipeline of `app.py` (dwh_table_creator).

The two Flask request handlers `index` (upload a CSV, stage it on HDFS) and
`columns_input` (create external table, materialize, drop external table,
clean staging directory) are embedded as pure functions.  External calls
(WebHDFS, psycopg2) are resolved by an outcome oracle: a record of booleans
saying which call succeeds; each run returns the ordered trace of attempted
external calls together with the HTTP response produced (a redirect, a
rendered template, or an uncaught exception propagating out of the handler).
-/

namespace DwhTableCreator

/-- Which of the two configured WebHDFS endpoints a client talks to.
`init_webhdfs_client` picks one at startup (primary first, standby second). -/
inductive HdfsEndpoint where
  | primary
  | standby
deriving DecidableEq, Repr

/-- Observable external calls made by the handlers, in program order.
HDFS calls carry the endpoint of the module-level client performing them.
`localSave` / `localRemove` are the `temp/` copy operations, `flashMsg` the
user-facing flash, `logInfo` the post-cleanup success log line. -/
inductive Event where
  | localSave (path : String)
  | localRemove (path : String)
  | hdfsMkdirs (client : HdfsEndpoint) (path : String)
  | hdfsUploadFile (client : HdfsEndpoint) (localPath remotePath : String)
  | hdfsWriteFile (client : HdfsEndpoint) (dataNodeUrl localPath : String)
  | hdfsDeleteRecursive (client : HdfsEndpoint) (path : Option String)
  | dbConnect
  | dbCreateExternal (schema table hdfsPath columnsDefinition delimiter : String)
  | dbMaterialize (schema sourceQualified newTable : String)
  | dbDropExternal (qualifiedName : String)
  | flashMsg (category : String)
  | logInfo
deriving DecidableEq, Repr

/-- The response a handler run produces: `exception` models an exception
escaping the handler body (no redirect, no rendered page reaches the user). -/
inductive Response where
  | redirectIndex
  | redirectSuccess (externalTableName internalTableName : String)
  | renderColumnsInput (headers : List String) (hdfsDirectory hdfsFilePath : String)
  | exception
deriving DecidableEq, Repr

/-- Python truthiness of an optional string form field:
`request.form.get` yields `None` when absent, and `not x` is true for
`None` and for the empty string. -/
def truthyOpt : Option String → Bool
  | none => false
  | some s => !(s == "")

/-- Is the event an HDFS or database call (as opposed to a local-file,
flash or log action)? -/
def Event.isRemoteOrDb : Event → Bool
  | .hdfsMkdirs _ _ => true
  | .hdfsUploadFile _ _ _ => true
  | .hdfsWriteFile _ _ _ => true
  | .hdfsDeleteRecursive _ _ => true
  | .dbConnect => true
  | .dbCreateExternal _ _ _ _ _ => true
  | .dbMaterialize _ _ _ => true
  | .dbDropExternal _ => true
  | _ => false

/-- Is the event a recursive HDFS delete (`delete_file(.., recursive=True)`)? -/
def Event.isDeleteRecursive : Event → Bool
  | .hdfsDeleteRecursive _ _ => true
  | _ => false

/-- Is the event the removal of the local temporary copy (`os.remove`)? -/
def Event.isLocalRemove : Event → Bool
  | .localRemove _ => true
  | _ => false

/-- The endpoint an event talks to, when it is an HDFS call. -/
def Event.hdfsClient : Event → Option HdfsEndpoint
  | .hdfsMkdirs c _ => some c
  | .hdfsUploadFile c _ _ => some c
  | .hdfsWriteFile c _ _ => some c
  | .hdfsDeleteRecursive c _ => some c
  | _ => none

/-- `init_webhdfs_client` (app.py lines 45-62): build a client against the
primary URL and probe it with `list_status`; on any exception retry against
the standby URL; on a second exception return `None`.  The first component
records which endpoints were probed, in order; the second is the returned
client. -/
def init_webhdfs_client (primaryOk standbyOk : Bool) :
    List HdfsEndpoint × Option HdfsEndpoint :=
  if primaryOk then ([.primary], some .primary)
  else if standbyOk then ([.primary, .standby], some .standby)
  else ([.primary, .standby], none)

/-- Module-level startup (app.py lines 66-69): if `init_webhdfs_client`
returned `None` the module raises, so the process refuses to start. -/
def startupClient (primaryOk standbyOk : Bool) : Except String HdfsEndpoint :=
  match (init_webhdfs_client primaryOk standbyOk).2 with
  | some c => .ok c
  | none => .error "HDFS unavailable on both endpoints"

/-- The upload request handled by `index`: whether the multipart field
`csv_file` is present, the submitted filename, and the CSV content as a
list of rows (first row = header row when the file is non-empty). -/
structure UploadRequest where
  hasFilePart : Bool
  filename : String
  content : List (List String)
deriving DecidableEq, Repr

/-- Oracle for the external calls `index` makes: whether `pd.read_csv`
parses, the generated `uuid.uuid4()` string, and the success of each
HDFS call.  `dataNodeUrl` is the value returned by `upload_file` when it
does not raise (`none` / empty string are falsy in the `if data_node_url:`
guard). -/
structure IndexOutcome where
  parseOk : Bool
  uuidStr : String
  mkdirsOk : Bool
  uploadFileOk : Bool
  dataNodeUrl : Option String
  writeFileOk : Bool
  deleteOk : Bool
deriving DecidableEq, Repr

/-- Result of one `index` POST run: the trace of external calls, the
response, the content of the `temp/` copy afterwards (`none` once removed
or never written), and the content of the staged remote file (`none` when
no transfer was performed). -/
structure IndexResult where
  events : List Event
  response : Response
  localFileAfter : Option (List (List String))
  remoteFileAfter : Option (List (List String))
deriving DecidableEq, Repr

/-- The `index` POST handler (app.py lines 74-135).

Control flow followed statement by statement:
no `csv_file` part → flash + redirect; empty filename → flash + redirect;
save to `temp/<filename>`; `pd.read_csv` then rewrite without header
(failure → flash + redirect, local copy left in place);
`mkdirs('/projects/vlgmic_<uuid>')` unguarded (failure propagates);
`upload_file` then, if the returned URL is truthy, `write_file`, both in one
`try` whose handler flashes, recursively deletes the new directory
(unguarded) and redirects; on try success `os.remove` the local copy and
render the mapping form. -/
def index (client : HdfsEndpoint) (req : UploadRequest) (o : IndexOutcome) :
    IndexResult :=
  if req.hasFilePart = false then
    ⟨[.flashMsg "danger"], .redirectIndex, none, none⟩
  else if req.filename = "" then
    ⟨[.flashMsg "danger"], .redirectIndex, none, none⟩
  else
    let localPath := "temp/" ++ req.filename
    match req.content, o.parseOk with
    | headerRow :: dataRows, true =>
      let hdfsDirectory := "/projects/vlgmic_" ++ o.uuidStr
      let hdfsFilePath := hdfsDirectory ++ "/" ++ req.filename
      let preUpload := [Event.localSave localPath,
                        Event.hdfsMkdirs client hdfsDirectory]
      if o.mkdirsOk = false then
        ⟨preUpload, .exception, some dataRows, none⟩
      else
        let upTrace := preUpload ++ [Event.hdfsUploadFile client localPath hdfsFilePath]
        if o.uploadFileOk = false then
          let failTrace := upTrace ++ [Event.flashMsg "danger",
                                       Event.hdfsDeleteRecursive client (some hdfsDirectory)]
          if o.deleteOk = false then
            ⟨failTrace, .exception, some dataRows, none⟩
          else
            ⟨failTrace ++ [.logInfo], .redirectIndex, some dataRows, none⟩
        else if truthyOpt o.dataNodeUrl then
          let writeTrace := upTrace ++
            [Event.hdfsWriteFile client (o.dataNodeUrl.getD "") localPath]
          if o.writeFileOk = false then
            let failTrace := writeTrace ++ [Event.flashMsg "danger",
                                            Event.hdfsDeleteRecursive client (some hdfsDirectory)]
            if o.deleteOk = false then
              ⟨failTrace, .exception, some dataRows, none⟩
            else
              ⟨failTrace ++ [.logInfo], .redirectIndex, some dataRows, none⟩
          else
            ⟨writeTrace ++ [.logInfo, .localRemove localPath],
             .renderColumnsInput headerRow hdfsDirectory hdfsFilePath,
             none, some dataRows⟩
        else
          ⟨upTrace ++ [.localRemove localPath],
           .renderColumnsInput headerRow hdfsDirectory hdfsFilePath,
           none, none⟩
    | _, _ =>
      ⟨[Event.localSave localPath, .flashMsg "danger"], .redirectIndex,
       some req.content, none⟩

/-- The form submitted to `columns_input`: `request.form.get` fields are
`Option String` (`none` when absent), `request.form.getlist` fields are
lists (empty when absent). -/
structure ColumnsForm where
  hdfs_file_path : Option String
  hdfs_directory : Option String
  table_name : Option String
  columns_info : List String
  types_info : List String
  delimiter : Option String
deriving DecidableEq, Repr

/-- Oracle for the external calls `columns_input` makes. -/
structure DbOutcome where
  connectOk : Bool
  createExternalOk : Bool
  materializeOk : Bool
  dropExternalOk : Bool
  deleteOk : Bool
deriving DecidableEq, Repr

/-- The schema names read from `config.ini` at startup. -/
structure Config where
  schemaExternal : String
  schemaInternal : String
deriving DecidableEq, Repr

/-- The required-fields check of `columns_input` (app.py line 151):
`if not hdfs_file_path or not table_name or not columns_info or not
types_info or not delimiter`.  Note `hdfs_directory` is not checked and
no length comparison between the two lists is made. -/
def formValid (f : ColumnsForm) : Bool :=
  truthyOpt f.hdfs_file_path && truthyOpt f.table_name &&
    !f.columns_info.isEmpty && !f.types_info.isEmpty && truthyOpt f.delimiter

/-- `columns_definition` (app.py line 156): join of `zip(columns_info,
types_info)`; Python's `zip` truncates to the shorter list. -/
def columnsDefinition (cols types : List String) : String :=
  String.intercalate ", " ((cols.zip types).map fun p => p.1 ++ " " ++ p.2)

/-- The `columns_input` POST handler (app.py lines 142-192).

Control flow: required-fields check → flash + redirect on failure;
`psycopg2.connect` and `create_external_table` in one `try` (failure →
flash + redirect); `create_table_from_external` in a `try` (failure →
flash + redirect); `drop_external_table` in a `try` (failure → flash +
redirect); then an unguarded recursive `delete_file(hdfs_directory)`
(failure propagates out of the handler); finally redirect to the success
page with the table name for both roles. -/
def columns_input (cfg : Config) (client : HdfsEndpoint) (f : ColumnsForm)
    (db : DbOutcome) : List Event × Response :=
  if formValid f = false then
    ([.flashMsg "danger"], .redirectIndex)
  else
    let tn := f.table_name.getD ""
    let colsDef := columnsDefinition f.columns_info f.types_info
    let e1 := Event.dbCreateExternal cfg.schemaExternal tn
      (f.hdfs_file_path.getD "") colsDef (f.delimiter.getD "")
    let e2 := Event.dbMaterialize cfg.schemaInternal
      (cfg.schemaExternal ++ "." ++ tn) tn
    let e3 := Event.dbDropExternal (cfg.schemaExternal ++ "." ++ tn)
    let e4 := Event.hdfsDeleteRecursive client f.hdfs_directory
    if db.connectOk = false then
      ([.dbConnect, .flashMsg "danger"], .redirectIndex)
    else if db.createExternalOk = false then
      ([.dbConnect, e1, .flashMsg "danger"], .redirectIndex)
    else if db.materializeOk = false then
      ([.dbConnect, e1, e2, .flashMsg "danger"], .redirectIndex)
    else if db.dropExternalOk = false then
      ([.dbConnect, e1, e2, e3, .flashMsg "danger"], .redirectIndex)
    else if db.deleteOk = false then
      ([.dbConnect, e1, e2, e3, e4], .exception)
    else
      ([.dbConnect, e1, e2, e3, e4, .logInfo], .redirectSuccess tn tn)

/-- The event `create_external_table` emits for a given config and form. -/
def evCreate (cfg : Config) (f : ColumnsForm) : Event :=
  .dbCreateExternal cfg.schemaExternal (f.table_name.getD "")
    (f.hdfs_file_path.getD "") (columnsDefinition f.columns_info f.types_info)
    (f.delimiter.getD "")

/-- The event `create_table_from_external` emits for a given config and form. -/
def evMaterialize (cfg : Config) (f : ColumnsForm) : Event :=
  .dbMaterialize cfg.schemaInternal
    (cfg.schemaExternal ++ "." ++ f.table_name.getD "") (f.table_name.getD "")

/-- The event `drop_external_table` emits for a given config and form. -/
def evDropExternal (cfg : Config) (f : ColumnsForm) : Event :=
  .dbDropExternal (cfg.schemaExternal ++ "." ++ f.table_name.getD "")

/-! Concrete fixtures used by counterexamples and witnesses. -/

def cfgEx : Config := ⟨"ext_schema", "int_schema"⟩

def dbAllOk : DbOutcome := ⟨true, true, true, true, true⟩

def dbDeleteFails : DbOutcome := ⟨true, true, true, true, false⟩

def dbCreateFails : DbOutcome := ⟨true, false, true, true, true⟩

/-- A mapping form whose `columns_info` has two entries but `types_info`
only one: every required field is non-empty, the lengths differ. -/
def formMismatch : ColumnsForm :=
  ⟨some "/projects/vlgmic_u/data.csv", some "/projects/vlgmic_u", some "t1",
   ["id", "name"], ["int"], some ","⟩

/-- A well-formed mapping form (matching lengths, all fields present). -/
def formGood : ColumnsForm :=
  ⟨some "/projects/vlgmic_u/data.csv", some "/projects/vlgmic_u", some "t1",
   ["id", "name"], ["int", "text"], some ","⟩

/-- An upload request: `data.csv`, header `id,name`, two data rows. -/
def reqEx : UploadRequest :=
  ⟨true, "data.csv", [["id", "name"], ["1", "a"], ["2", "b"]]⟩

/-- `index` outcome in which `upload_file` raises and the subsequent
recursive cleanup delete also raises. -/
def oUploadFailDeleteFail : IndexOutcome :=
  ⟨true, "u", true, false, none, true, false⟩

/-- `index` outcome in which `upload_file` raises and the cleanup delete
succeeds. -/
def oUploadFails : IndexOutcome :=
  ⟨true, "u", true, false, none, true, true⟩

/-- `index` outcome in which everything succeeds and `upload_file` returns
a non-empty data-node URL. -/
def oAllOk : IndexOutcome :=
  ⟨true, "u", true, true, some "http://dn:9864/x", true, true⟩

/-- `index` outcome in which `upload_file` succeeds but returns a falsy
(absent) data-node URL. -/
def oFalsyUrl : IndexOutcome :=
  ⟨true, "u", true, true, none, true, true⟩

/-- Claim C1, counterexample: a submission whose `columns_info` and
`types_info` differ in length (both non-empty) is not rejected — the run
reaches database calls (`psycopg2.connect` and `CREATE EXTERNAL TABLE`),
because the required-fields check only tests each field for emptiness and
`zip` silently truncates. -/
theorem C1_counterexample :
    formMismatch.columns_info.length ≠ formMismatch.types_info.length ∧
    ((columns_input cfgEx .primary formMismatch dbAllOk).1.any
      Event.isRemoteOrDb) = true := by
  constructor
  · decide
  · rfl

/-- Claim C1, amended: a mismatched-length submission is rejected before
any remote or database call only when one of the two lists is empty; the
validation checks only that each required field is non-empty, so whenever
it passes the handler proceeds to database calls regardless of the lists
having equal length. -/
theorem C1_amended_validation_only_checks_presence :
    ∀ (cfg : Config) (client : HdfsEndpoint) (f : ColumnsForm) (db : DbOutcome),
    ((f.columns_info = [] ∨ f.types_info = []) →
      columns_input cfg client f db = ([.flashMsg "danger"], .redirectIndex)) ∧
    (formValid f = true →
      ((columns_input cfg client f db).1.any Event.isRemoteOrDb) = true) := by
  intro cfg client f db
  constructor
  · intro h
    have hv : formValid f = false := by
      rcases h with h | h <;> simp [formValid, h]
    simp [columns_input, hv]
  · intro hv
    rcases db with ⟨c1, c2, c3, c4, c5⟩
    cases c1 <;> cases c2 <;> cases c3 <;> cases c4 <;> cases c5 <;>
      simp [columns_input, hv, Event.isRemoteOrDb]

/-- Claim C1, witness: the amended theorem applied to a form whose
`types_info` list is empty. -/
theorem C1_witness :
    columns_input cfgEx .primary
      ⟨some "/projects/vlgmic_u/data.csv", some "/projects/vlgmic_u",
       some "t1", ["id", "name"], [], some ","⟩ dbAllOk =
      ([.flashMsg "danger"], .redirectIndex) :=
  (C1_amended_validation_only_checks_presence cfgEx .primary
    ⟨some "/projects/vlgmic_u/data.csv", some "/projects/vlgmic_u",
     some "t1", ["id", "name"], [], some ","⟩ dbAllOk).1 (Or.inr rfl)

/-- Claim C2, counterexample: the recursive cleanup delete is not guarded
by any handler.  When it raises, the exception propagates out of the
handler: on `columns_input`'s success path and on `index`'s upload-failure
path the redirect is never issued (response is an uncaught exception, not
a redirect), contradicting that a cleanup failure never blocks the
redirect. -/
theorem C2_counterexample :
    (columns_input cfgEx .primary formGood dbDeleteFails).2 =
      Response.exception ∧
    (index .primary reqEx oUploadFailDeleteFail).response =
      Response.exception := by
  constructor <;> rfl

/-- Claim C2, amended: the cleanup delete's failure is neither caught nor
logged — the delete call is unguarded, so when it raises, the exception
propagates and no redirect is issued; the request completes its redirect
exactly when the delete succeeds.  (On `columns_input` this happens after
the three database sub-steps succeed; on `index`, after an upload
failure.) -/
theorem C2_amended_cleanup_delete_unguarded :
    (∀ (cfg : Config) (client : HdfsEndpoint) (f : ColumnsForm) (db : DbOutcome),
      formValid f = true → db.connectOk = true → db.createExternalOk = true →
      db.materializeOk = true → db.dropExternalOk = true →
      (columns_input cfg client f db).2 =
        (if db.deleteOk then
          Response.redirectSuccess (f.table_name.getD "") (f.table_name.getD "")
         else Response.exception)) ∧
    (∀ (client : HdfsEndpoint) (req : UploadRequest) (o : IndexOutcome)
       (headerRow : List String) (dataRows : List (List String)),
      req.hasFilePart = true → req.filename ≠ "" →
      req.content = headerRow :: dataRows → o.parseOk = true →
      o.mkdirsOk = true → o.uploadFileOk = false →
      (index client req o).response =
        (if o.deleteOk then Response.redirectIndex else Response.exception)) := by
  constructor
  · intro cfg client f db hv h1 h2 h3 h4
    cases h5 : db.deleteOk <;>
      simp [columns_input, hv, h1, h2, h3, h4, h5]
  · intro client req o headerRow dataRows hfp hfn hcontent hparse hmk hup
    cases h5 : o.deleteOk <;>
      simp [index, hfp, hfn, hcontent, hparse, hmk, hup, h5]

/-- Claim C2, witness: the amended theorem applied to a valid form with
all three database sub-steps succeeding and the delete failing. -/
theorem C2_witness :
    (columns_input cfgEx .primary formGood dbDeleteFails).2 =
      (if dbDeleteFails.deleteOk then
        Response.redirectSuccess (formGood.table_name.getD "")
          (formGood.table_name.getD "")
       else Response.exception) :=
  C2_amended_cleanup_delete_unguarded.1 cfgEx .primary formGood dbDeleteFails
    rfl rfl rfl rfl rfl

/-- Claim C3: once the form passes validation and the connection is
established, the database sub-steps run in the fixed order create
external mapping, materialize, drop external mapping; a failure of any
sub-step yields exactly the trace up to the failed attempt followed by a
danger flash and a redirect — no later sub-step runs, no cleanup delete
runs, and no drop of an already-created mapping or table appears on a
failure path.  On success the trace starts with the three sub-steps in
order. -/
theorem C3_db_substeps_fixed_order_abort :
    ∀ (cfg : Config) (client : HdfsEndpoint) (f : ColumnsForm) (db : DbOutcome),
    formValid f = true → db.connectOk = true →
    (db.createExternalOk = false →
      columns_input cfg client f db =
        ([.dbConnect, evCreate cfg f, .flashMsg "danger"], .redirectIndex)) ∧
    (db.createExternalOk = true → db.materializeOk = false →
      columns_input cfg client f db =
        ([.dbConnect, evCreate cfg f, evMaterialize cfg f, .flashMsg "danger"],
         .redirectIndex)) ∧
    (db.createExternalOk = true → db.materializeOk = true →
     db.dropExternalOk = false →
      columns_input cfg client f db =
        ([.dbConnect, evCreate cfg f, evMaterialize cfg f, evDropExternal cfg f,
          .flashMsg "danger"], .redirectIndex)) ∧
    (db.createExternalOk = true → db.materializeOk = true →
     db.dropExternalOk = true →
      (columns_input cfg client f db).1.take 4 =
        [.dbConnect, evCreate cfg f, evMaterialize cfg f, evDropExternal cfg f]) := by
  intro cfg client f db hv hconn
  refine ⟨?_, ?_, ?_, ?_⟩
  · intro h1
    simp [columns_input, hv, hconn, h1, evCreate]
  · intro h1 h2
    simp [columns_input, hv, hconn, h1, h2, evCreate, evMaterialize]
  · intro h1 h2 h3
    simp [columns_input, hv, hconn, h1, h2, h3, evCreate, evMaterialize,
      evDropExternal]
  · intro h1 h2 h3
    cases h4 : db.deleteOk <;>
      simp [columns_input, hv, hconn, h1, h2, h3, h4, evCreate, evMaterialize,
        evDropExternal]

/-- Claim C3, witness: the theorem applied to a valid form where the
create-external sub-step fails. -/
theorem C3_witness :
    columns_input cfgEx .primary formGood dbCreateFails =
      ([.dbConnect, evCreate cfgEx formGood, .flashMsg "danger"],
       .redirectIndex) :=
  (C3_db_substeps_fixed_order_abort cfgEx .primary formGood dbCreateFails
    rfl rfl).1 rfl

/-- Claim C4: for every run of `columns_input`, the recursive delete of
the remote staging directory is attempted exactly when validation passed,
the connection succeeded and all three database sub-steps (create
external, materialize, drop external) succeeded. -/
theorem C4_cleanup_delete_iff_all_db_substeps :
    ∀ (cfg : Config) (client : HdfsEndpoint) (f : ColumnsForm) (db : DbOutcome),
    ((columns_input cfg client f db).1.any Event.isDeleteRecursive) =
      (formValid f && db.connectOk && db.createExternalOk &&
       db.materializeOk && db.dropExternalOk) := by
  intro cfg client f db
  rcases db with ⟨c1, c2, c3, c4, c5⟩
  cases hv : formValid f <;> cases c1 <;> cases c2 <;> cases c3 <;>
    cases c4 <;> cases c5 <;>
    simp [columns_input, hv, Event.isDeleteRecursive]

/-- Claim C5: when the remote upload step fails (and the cleanup delete
itself succeeds), `index` runs exactly save, mkdirs, upload attempt, flash,
recursive delete of the new directory, log — the delete precedes the
redirect response, the local temporary copy is left in place — and in
every run of `index` the local temporary copy is removed exactly when the
upload `try` block succeeded (negotiation succeeded and, if the returned
URL was truthy, the transfer succeeded too). -/
theorem C5_upload_failure_delete_and_local_copy :
    (∀ (client : HdfsEndpoint) (req : UploadRequest) (o : IndexOutcome)
       (headerRow : List String) (dataRows : List (List String)),
      req.hasFilePart = true → req.filename ≠ "" →
      req.content = headerRow :: dataRows → o.parseOk = true →
      o.mkdirsOk = true → o.uploadFileOk = false → o.deleteOk = true →
      index client req o =
        ⟨[.localSave ("temp/" ++ req.filename),
          .hdfsMkdirs client ("/projects/vlgmic_" ++ o.uuidStr),
          .hdfsUploadFile client ("temp/" ++ req.filename)
            ("/projects/vlgmic_" ++ o.uuidStr ++ "/" ++ req.filename),
          .flashMsg "danger",
          .hdfsDeleteRecursive client (some ("/projects/vlgmic_" ++ o.uuidStr)),
          .logInfo], .redirectIndex, some dataRows, none⟩) ∧
    (∀ (client : HdfsEndpoint) (req : UploadRequest) (o : IndexOutcome),
      ((index client req o).events.any Event.isLocalRemove) =
        (req.hasFilePart && !(req.filename == "") && !req.content.isEmpty &&
         o.parseOk && o.mkdirsOk && o.uploadFileOk &&
         (!truthyOpt o.dataNodeUrl || o.writeFileOk))) := by
  constructor
  · intro client req o headerRow dataRows hfp hfn hcontent hparse hmk hup hdel
    simp [index, hfp, hfn, hcontent, hparse, hmk, hup, hdel]
  · intro client req o
    rcases req with ⟨hfp, fn, content⟩
    rcases o with ⟨p, u, mk, up, url, wr, del⟩
    cases hfp
    · simp [index, Event.isLocalRemove]
    · by_cases hfn : fn = ""
      · simp [index, hfn, Event.isLocalRemove]
      · cases content with
        | nil => simp [index, hfn, Event.isLocalRemove]
        | cons headerRow dataRows =>
          cases p <;> cases mk <;> cases up <;> cases wr <;> cases del <;>
            cases hurl : truthyOpt url <;>
            simp [index, hfn, hurl, Event.isLocalRemove]

/-- Claim C5, witness: the first part of the theorem applied to a concrete
upload whose `upload_file` call fails. -/
theorem C5_witness :
    index .primary reqEx oUploadFails =
      ⟨[.localSave "temp/data.csv",
        .hdfsMkdirs .primary "/projects/vlgmic_u",
        .hdfsUploadFile .primary "temp/data.csv" "/projects/vlgmic_u/data.csv",
        .flashMsg "danger",
        .hdfsDeleteRecursive .primary (some "/projects/vlgmic_u"),
        .logInfo], .redirectIndex, some [["1", "a"], ["2", "b"]], none⟩ :=
  C5_upload_failure_delete_and_local_copy.1 .primary reqEx oUploadFails
    ["id", "name"] [["1", "a"], ["2", "b"]] rfl (by decide) rfl rfl rfl rfl rfl

/-- Claim C6: for a valid CSV upload (header row plus data rows) whose
parse, mkdirs, upload negotiation and transfer all succeed, the staged
remote file holds exactly the data rows (the header row is stripped, so
its line count equals the data-row count), the headers handed to the
mapping form are the first row in file order, and the staging paths are
`/projects/vlgmic_<uuid>` and `/projects/vlgmic_<uuid>/<filename>`. -/
theorem C6_valid_csv_staging :
    ∀ (client : HdfsEndpoint) (req : UploadRequest) (o : IndexOutcome)
      (headerRow : List String) (dataRows : List (List String)),
    req.hasFilePart = true → req.filename ≠ "" →
    req.content = headerRow :: dataRows → o.parseOk = true →
    o.mkdirsOk = true → o.uploadFileOk = true →
    truthyOpt o.dataNodeUrl = true → o.writeFileOk = true →
    (index client req o).remoteFileAfter = some dataRows ∧
    ((index client req o).remoteFileAfter.getD []).length = dataRows.length ∧
    (index client req o).response =
      .renderColumnsInput headerRow ("/projects/vlgmic_" ++ o.uuidStr)
        ("/projects/vlgmic_" ++ o.uuidStr ++ "/" ++ req.filename) := by
  intro client req o headerRow dataRows hfp hfn hcontent hparse hmk hup hurl hwr
  refine ⟨?_, ?_, ?_⟩ <;>
    simp [index, hfp, hfn, hcontent, hparse, hmk, hup, hurl, hwr]

/-- Claim C6, witness: the theorem applied to `data.csv` with header
`id,name` and two data rows, all remote calls succeeding. -/
theorem C6_witness :
    (index .primary reqEx oAllOk).remoteFileAfter =
      some [["1", "a"], ["2", "b"]] ∧
    ((index .primary reqEx oAllOk).remoteFileAfter.getD []).length = 2 ∧
    (index .primary reqEx oAllOk).response =
      .renderColumnsInput ["id", "name"] "/projects/vlgmic_u"
        "/projects/vlgmic_u/data.csv" :=
  C6_valid_csv_staging .primary reqEx oAllOk ["id", "name"]
    [["1", "a"], ["2", "b"]] rfl (by decide) rfl rfl rfl rfl rfl rfl

/-- Claim C7: startup probes the primary endpoint first and probes the
standby only when the primary probe fails; when neither responds the
module-level check raises and the process refuses to start; and after
this initial selection every HDFS call in every run of `index` and
`columns_input` uses the client selected at startup — no event ever
carries a different endpoint, whatever the outcomes. -/
theorem C7_startup_endpoint_selection_no_failover :
    (∀ b : Bool, init_webhdfs_client true b = ([.primary], some .primary)) ∧
    init_webhdfs_client false true = ([.primary, .standby], some .standby) ∧
    init_webhdfs_client false false = ([.primary, .standby], none) ∧
    startupClient false false = .error "HDFS unavailable on both endpoints" ∧
    (∀ (client : HdfsEndpoint) (req : UploadRequest) (o : IndexOutcome),
      ((index client req o).events.all
        fun e => (e.hdfsClient.getD client) == client) = true) ∧
    (∀ (cfg : Config) (client : HdfsEndpoint) (f : ColumnsForm) (db : DbOutcome),
      ((columns_input cfg client f db).1.all
        fun e => (e.hdfsClient.getD client) == client) = true) := by
  refine ⟨fun b => rfl, rfl, rfl, rfl, ?_, ?_⟩
  · intro client req o
    rcases req with ⟨hfp, fn, content⟩
    rcases o with ⟨p, u, mk, up, url, wr, del⟩
    cases hfp
    · simp [index, Event.hdfsClient]
    · by_cases hfn : fn = ""
      · simp [index, hfn, Event.hdfsClient]
      · cases content with
        | nil => simp [index, hfn, Event.hdfsClient]
        | cons headerRow dataRows =>
          cases p <;> cases mk <;> cases up <;> cases wr <;> cases del <;>
            cases hurl : truthyOpt url <;>
            simp [index, hfn, hurl, Event.hdfsClient]
  · intro cfg client f db
    rcases db with ⟨c1, c2, c3, c4, c5⟩
    cases hv : formValid f <;> cases c1 <;> cases c2 <;> cases c3 <;>
      cases c4 <;> cases c5 <;>
      simp [columns_input, hv, Event.hdfsClient]

/-- Claim C8: a POST without a `csv_file` part, or with an empty filename,
yields exactly a danger flash and a redirect to the upload form — the
trace holds no HDFS or database call, the local temp copy is never
written, and no remote file is created. -/
theorem C8_missing_file_rejected_without_calls :
    ∀ (client : HdfsEndpoint) (req : UploadRequest) (o : IndexOutcome),
    (req.hasFilePart = false ∨ req.filename = "") →
    index client req o =
      ⟨[.flashMsg "danger"], .redirectIndex, none, none⟩ := by
  intro client req o h
  rcases h with h | h
  · simp [index, h]
  · cases hfp : req.hasFilePart <;> simp [index, h, hfp]

/-- Claim C8, witness: the theorem applied to a request with the file part
present but an empty filename. -/
theorem C8_witness :
    index .primary ⟨true, "", [["id"], ["1"]]⟩ oAllOk =
      ⟨[.flashMsg "danger"], .redirectIndex, none, none⟩ :=
  C8_missing_file_rejected_without_calls .primary ⟨true, "", [["id"], ["1"]]⟩
    oAllOk (Or.inr rfl)

/-- Claim C9: when `upload_file` returns without raising but yields a
falsy data-node URL, the run is exactly save, mkdirs, upload negotiation,
local remove — the transfer (`write_file`) never happens, no exception is
raised, the local temporary copy is deleted, the mapping form is rendered
with the same arguments as on a full success, and no remote file
exists. -/
theorem C9_falsy_datanode_url_silent :
    ∀ (client : HdfsEndpoint) (req : UploadRequest) (o : IndexOutcome)
      (headerRow : List String) (dataRows : List (List String)),
    req.hasFilePart = true → req.filename ≠ "" →
    req.content = headerRow :: dataRows → o.parseOk = true →
    o.mkdirsOk = true → o.uploadFileOk = true →
    truthyOpt o.dataNodeUrl = false →
    index client req o =
      ⟨[.localSave ("temp/" ++ req.filename),
        .hdfsMkdirs client ("/projects/vlgmic_" ++ o.uuidStr),
        .hdfsUploadFile client ("temp/" ++ req.filename)
          ("/projects/vlgmic_" ++ o.uuidStr ++ "/" ++ req.filename),
        .localRemove ("temp/" ++ req.filename)],
       .renderColumnsInput headerRow ("/projects/vlgmic_" ++ o.uuidStr)
         ("/projects/vlgmic_" ++ o.uuidStr ++ "/" ++ req.filename),
       none, none⟩ := by
  intro client req o headerRow dataRows hfp hfn hcontent hparse hmk hup hurl
  simp [index, hfp, hfn, hcontent, hparse, hmk, hup, hurl]

/-- Claim C9, witness: the theorem applied to the concrete upload with
`upload_file` returning `None` as the data-node URL. -/
theorem C9_witness :
    index .primary reqEx oFalsyUrl =
      ⟨[.localSave "temp/data.csv",
        .hdfsMkdirs .primary "/projects/vlgmic_u",
        .hdfsUploadFile .primary "temp/data.csv" "/projects/vlgmic_u/data.csv",
        .localRemove "temp/data.csv"],
       .renderColumnsInput ["id", "name"] "/projects/vlgmic_u"
         "/projects/vlgmic_u/data.csv",
       none, none⟩ :=
  C9_falsy_datanode_url_silent .primary reqEx oFalsyUrl ["id", "name"]
    [["1", "a"], ["2", "b"]] rfl (by decide) rfl rfl rfl rfl rfl

/-- Claim C10: the required-fields check of `columns_input` covers
`hdfs_file_path`, `table_name`, `columns_info`, `types_info` and
`delimiter` but not `hdfs_directory`: a submission with those five
present and `hdfs_directory` absent passes validation, and when the
connection and all three database sub-steps succeed the run executes all
three sub-steps and then invokes the recursive remote delete with a
`None` path. -/
theorem C10_hdfs_directory_unchecked :
    ∀ (cfg : Config) (client : HdfsEndpoint) (fp tn dl : String)
      (ci ti : List String),
    fp ≠ "" → tn ≠ "" → ci ≠ [] → ti ≠ [] → dl ≠ "" →
    formValid ⟨some fp, none, some tn, ci, ti, some dl⟩ = true ∧
    columns_input cfg client ⟨some fp, none, some tn, ci, ti, some dl⟩
        ⟨true, true, true, true, true⟩ =
      ([.dbConnect,
        evCreate cfg ⟨some fp, none, some tn, ci, ti, some dl⟩,
        evMaterialize cfg ⟨some fp, none, some tn, ci, ti, some dl⟩,
        evDropExternal cfg ⟨some fp, none, some tn, ci, ti, some dl⟩,
        .hdfsDeleteRecursive client none, .logInfo],
       .redirectSuccess tn tn) := by
  intro cfg client fp tn dl ci ti hfp htn hci hti hdl
  have hv : formValid ⟨some fp, none, some tn, ci, ti, some dl⟩ = true := by
    simp [formValid, truthyOpt, hfp, htn, hdl, hci, hti]
  exact ⟨hv, by simp [columns_input, hv, evCreate, evMaterialize, evDropExternal]⟩

/-- Claim C10, witness: the theorem applied to a concrete submission
missing `hdfs_directory`. -/
theorem C10_witness :
    formValid ⟨some "/projects/vlgmic_u/data.csv", none, some "t1",
      ["id", "name"], ["int", "text"], some ","⟩ = true ∧
    columns_input cfgEx .primary
      ⟨some "/projects/vlgmic_u/data.csv", none, some "t1",
       ["id", "name"], ["int", "text"], some ","⟩
      ⟨true, true, true, true, true⟩ =
      ([.dbConnect,
        evCreate cfgEx ⟨some "/projects/vlgmic_u/data.csv", none, some "t1",
          ["id", "name"], ["int", "text"], some ","⟩,
        evMaterialize cfgEx ⟨some "/projects/vlgmic_u/data.csv", none, some "t1",
          ["id", "name"], ["int", "text"], some ","⟩,
        evDropExternal cfgEx ⟨some "/projects/vlgmic_u/data.csv", none, some "t1",
          ["id", "name"], ["int", "text"], some ","⟩,
        .hdfsDeleteRecursive .primary none, .logInfo],
       .redirectSuccess "t1" "t1") :=
  C10_hdfs_directory_unchecked cfgEx .primary "/projects/vlgmic_u/data.csv"
    "t1" "," ["id", "name"] ["int", "text"]
    (by decide) (by decide) (by decide) (by decide) (by decide)

end DwhTableCreator
